import Mathlib

/-!
Verification of the skyportal_spatial spatial predicate engine.

The repository provides three interchangeable spatial strategies
(`UnindexedSpatialBackend` in spatial/none.py, `Q3CSpatialBackend` in
spatial/q3c.py, `PostGISSpatialBackend` in spatial/postgis.py) plus a
configuration-driven selector (clock.py).  Each strategy builds SQL
expressions for two operations, `distance` (angular separation in arcsec)
and `radially_within` (radius containment).  We embed:

* the numeric meaning of the built expressions over `ℝ`, with the SQL
  trigonometric functions denoted by their mathematical counterparts and
  the external index primitives (`q3c_dist`, `q3c_radial_query`,
  `q3c_join`, `ST_Distance`, `ST_DWithin`) denoted by the great-circle
  semantics the spec assigns to them;
* the Python-side in-memory state machine of the PostGIS packed `radec`
  string (setters/getters of the hybrid `ra`/`dec` properties), with the
  tokens of the `POINT(x y)` string modelled exactly (including the
  distinction between the literal placeholder token `NULL` and the token
  `None` that a Python f-string produces when interpolating the value
  `None`), and Python floats modelled by exact rationals;
* the argument-dispatch behaviour of `radially_within` (instance versus
  class versus invalid argument) and the strategy selector.
-/

/-- `DEG_TO_RAD = np.pi / 180.` from spatial/none.py. -/
noncomputable def DEG_TO_RAD : ℝ := Real.pi / 180

/-- `RADIANS_PER_ARCSEC = DEG_TO_RAD / 3600.` from spatial/none.py
(spatial/postgis.py defines the same value as `np.pi / 180. / 3600.`). -/
noncomputable def RADIANS_PER_ARCSEC : ℝ := DEG_TO_RAD / 3600

/-- `DEGREES_PER_ARCSEC = 1 / 3600.` from spatial/q3c.py. -/
noncomputable def DEGREES_PER_ARCSEC : ℝ := 1 / 3600

/-- A coordinate carrier: a record with `ra` and `dec` fields in degrees
(the two `DOUBLE_PRECISION` columns of the Unindexed and Q3C backends). -/
structure Coords where
  ra : ℝ
  dec : ℝ

/-- The clamped cosine sum built by `UnindexedSpatialBackend.distance`
(spatial/none.py lines 48-54): the variable names `ca1`, `ca2`, `sa1`,
`sa2`, `cf` and the clamp `least(greatest(·, -1), 1)` mirror the source. -/
noncomputable def UnindexedSpatialBackend.roundoff_safe (self other : Coords) : ℝ :=
  let ca1 := Real.cos ((90 - self.dec) * DEG_TO_RAD)
  let ca2 := Real.cos ((90 - other.dec) * DEG_TO_RAD)
  let sa1 := Real.sin ((90 - self.dec) * DEG_TO_RAD)
  let sa2 := Real.sin ((90 - other.dec) * DEG_TO_RAD)
  let cf := Real.cos ((self.ra - other.ra) * DEG_TO_RAD)
  min (max (ca1 * ca2 + sa1 * sa2 * cf) (-1)) 1

/-- `UnindexedSpatialBackend.distance` (spatial/none.py line 55):
`acos(roundoff_safe) / RADIANS_PER_ARCSEC`. -/
noncomputable def UnindexedSpatialBackend.distance (self other : Coords) : ℝ :=
  Real.arccos (UnindexedSpatialBackend.roundoff_safe self other) / RADIANS_PER_ARCSEC

/-- `UnindexedSpatialBackend.radially_within` (spatial/none.py line 77):
exactly `distance(self, other) <= angular_sep_arcsec`. -/
def UnindexedSpatialBackend.radially_within (self other : Coords)
    (angular_sep_arcsec : ℝ) : Prop :=
  UnindexedSpatialBackend.distance self other ≤ angular_sep_arcsec

/-- The spec's `radians_per_arcsec = (π/180)/3600`, written from the
spec's words for comparison with the source constant. -/
noncomputable def radians_per_arcsec_spec : ℝ := (Real.pi / 180) / 3600

/-- The spec's `angular_distance` formula, written from the spec's words:
colatitudes `θ1 = 90° - dec1`, `θ2 = 90° - dec2` in radians,
`cos d = cos θ1 · cos θ2 + sin θ1 · sin θ2 · cos (ra1 - ra2)`, the cosine
sum clamped to the interval `[-1, 1]`, then `arccos` divided by
`radians_per_arcsec`. -/
noncomputable def angular_distance_spec (ra1 dec1 ra2 dec2 : ℝ) : ℝ :=
  let t1 := (90 - dec1) * (Real.pi / 180)
  let t2 := (90 - dec2) * (Real.pi / 180)
  let s := Real.cos t1 * Real.cos t2 +
    Real.sin t1 * Real.sin t2 * Real.cos ((ra1 - ra2) * (Real.pi / 180))
  Real.arccos (max (-1) (min s 1)) / radians_per_arcsec_spec

/-- Swapping the two points negates the angle inside the final cosine and
commutes the products, leaving the cosine sum unchanged. -/
theorem cosSum_swap (a1 a2 b1 b2 u v : ℝ) :
    a1 * a2 + b1 * b2 * Real.cos ((u - v) * DEG_TO_RAD) =
      a2 * a1 + b2 * b1 * Real.cos ((v - u) * DEG_TO_RAD) := by
  rw [show (u - v) * DEG_TO_RAD = -((v - u) * DEG_TO_RAD) by ring, Real.cos_neg]
  ring

/-- The two clamp spellings agree: `least(greatest(x, -1), 1)` from the
source equals the spec's clamp of `x` to `[-1, 1]`. -/
theorem clamp_spellings (x : ℝ) :
    min (max x (-1)) 1 = max (-1) (min x 1) := by
  rw [min_max_distrib_right]
  rw [show min (-1 : ℝ) 1 = -1 by norm_num, max_comm]

/-- Claim C1: the argument handed to `acos` in the Unindexed strategy's
`distance` is clamped to `[-1, 1]` (so `arccos` is applied within its
domain and never yields NaN), identical points (any `ra`, any `dec`,
poles included) are at distance exactly `0` arcsec, and antipodal points
(`ra + 180°`, `-dec`) are at distance exactly `180 × 3600` arcsec. -/
theorem unindexed_distance_clamped_and_exact (ra dec ra2 dec2 : ℝ) :
    (-1 ≤ UnindexedSpatialBackend.roundoff_safe ⟨ra, dec⟩ ⟨ra2, dec2⟩ ∧
      UnindexedSpatialBackend.roundoff_safe ⟨ra, dec⟩ ⟨ra2, dec2⟩ ≤ 1) ∧
    UnindexedSpatialBackend.distance ⟨ra, dec⟩ ⟨ra, dec⟩ = 0 ∧
    UnindexedSpatialBackend.distance ⟨ra, dec⟩ ⟨ra + 180, -dec⟩ = 180 * 3600 := by
  refine ⟨⟨?_, ?_⟩, ?_, ?_⟩
  · exact le_min (le_max_right _ _) (by norm_num)
  · exact min_le_right _ _
  · have hs : UnindexedSpatialBackend.roundoff_safe ⟨ra, dec⟩ ⟨ra, dec⟩ = 1 := by
      simp only [UnindexedSpatialBackend.roundoff_safe, sub_self, zero_mul,
        Real.cos_zero, mul_one]
      rw [show Real.cos ((90 - dec) * DEG_TO_RAD) * Real.cos ((90 - dec) * DEG_TO_RAD) +
          Real.sin ((90 - dec) * DEG_TO_RAD) * Real.sin ((90 - dec) * DEG_TO_RAD) = 1 by
        have := Real.cos_sq_add_sin_sq ((90 - dec) * DEG_TO_RAD)
        nlinarith [this]]
      norm_num
    rw [UnindexedSpatialBackend.distance, hs, Real.arccos_one, zero_div]
  · have hπ : Real.pi ≠ 0 := Real.pi_ne_zero
    have hs : UnindexedSpatialBackend.roundoff_safe ⟨ra, dec⟩ ⟨ra + 180, -dec⟩ = -1 := by
      simp only [UnindexedSpatialBackend.roundoff_safe]
      have hcf : Real.cos ((ra - (ra + 180)) * DEG_TO_RAD) = -1 := by
        rw [show (ra - (ra + 180)) * DEG_TO_RAD = -Real.pi by
          rw [DEG_TO_RAD]; ring]
        rw [Real.cos_neg, Real.cos_pi]
      rw [hcf]
      have hsum : Real.cos ((90 - dec) * DEG_TO_RAD) * Real.cos ((90 - -dec) * DEG_TO_RAD) +
          Real.sin ((90 - dec) * DEG_TO_RAD) * Real.sin ((90 - -dec) * DEG_TO_RAD) * -1 =
          Real.cos ((90 - dec) * DEG_TO_RAD + (90 - -dec) * DEG_TO_RAD) := by
        rw [Real.cos_add]; ring
      rw [hsum, show (90 - dec) * DEG_TO_RAD + (90 - -dec) * DEG_TO_RAD = Real.pi by
        rw [DEG_TO_RAD]; ring, Real.cos_pi]
      norm_num
    rw [UnindexedSpatialBackend.distance, hs, Real.arccos_neg_one,
      RADIANS_PER_ARCSEC, DEG_TO_RAD]
    field_simp

/-- Claim C2: for all inputs the Unindexed strategy's `distance` equals
the spec's spherical law-of-cosines formula
`arccos(clamp(cos θ1 cos θ2 + sin θ1 sin θ2 cos(Δra), -1, 1)) / radians_per_arcsec`
with `θi = (90° - dec_i)` in radians and
`radians_per_arcsec = (π/180)/3600`, built directly from the two
carriers' `ra`/`dec` fields. -/
theorem unindexed_distance_matches_spec_formula (self other : Coords) :
    UnindexedSpatialBackend.distance self other =
      angular_distance_spec self.ra self.dec other.ra other.dec := by
  simp only [UnindexedSpatialBackend.distance, UnindexedSpatialBackend.roundoff_safe,
    angular_distance_spec, RADIANS_PER_ARCSEC, radians_per_arcsec_spec, DEG_TO_RAD]
  rw [clamp_spellings]

/-- One whitespace-separated token of the stored `POINT(x y)` string of
the PostGIS backend's `radec` column (spatial/postgis.py).  `NULL` is the
literal placeholder token written by `DEFAULT = 'POINT(NULL NULL)'`;
`pyNone` is the token `None` that a Python f-string produces when it
interpolates the value `None`; `num q` is the decimal rendering of a
Python float, modelled by an exact rational (Python's `repr`/`float`
round-trip is exact). -/
inductive PointTok
  | NULL
  | pyNone
  | num (q : ℚ)
deriving DecidableEq

/-- The in-memory `radec` attribute: `Option.none` models the Python value
`None`, `some (x, y)` models the string `POINT(x y)` whose two tokens
`_splstr` would return. -/
abbrev Radec := Option (PointTok × PointTok)

/-- A Python exception raised by the embedded PostGIS accessors. -/
inductive PyErr
  | valueError (msg : String)
  | typeError (msg : String)
  | attributeError (msg : String)
deriving DecidableEq

deriving instance DecidableEq for Except

/-- `PostGISSpatialBackend.DEFAULT = 'POINT(NULL NULL)'`
(spatial/postgis.py line 159). -/
def PostGISSpatialBackend.DEFAULT : Radec := some (PointTok.NULL, PointTok.NULL)

/-- `PostGISSpatialBackend._complete` (spatial/postgis.py lines 167-174):
`False` when `radec` is `None`, `False` when any token of `_splstr()`
equals the string `'NULL'`, `True` otherwise.  Note it compares against
the literal `'NULL'` only. -/
def PostGISSpatialBackend._complete (radec : Radec) : Bool :=
  match radec with
  | none => false
  | some (PointTok.NULL, _) => false
  | some (_, PointTok.NULL) => false
  | some (_, _) => true

/-- Python's `float(token)`: succeeds on a numeric token, raises
`ValueError` on the strings `'NULL'` and `'None'`. -/
def pyFloat : PointTok → Except PyErr ℚ
  | PointTok.num q => Except.ok q
  | PointTok.NULL => Except.error (PyErr.valueError "could not convert string to float: NULL")
  | PointTok.pyNone => Except.error (PyErr.valueError "could not convert string to float: None")

/-- The `ra` getter (spatial/postgis.py lines 176-181): `None` when not
`_complete`, otherwise `float(self._splstr()[0]) + 180`. -/
def PostGISSpatialBackend.ra_get (radec : Radec) : Except PyErr (Option ℚ) :=
  match radec with
  | none => Except.ok none
  | some (x, y) =>
    if PostGISSpatialBackend._complete (some (x, y)) then
      (pyFloat x).map (fun q => some (q + 180))
    else
      Except.ok none

/-- The `dec` getter (spatial/postgis.py lines 183-188): `None` when not
`_complete`, otherwise `float(self._splstr()[1])`. -/
def PostGISSpatialBackend.dec_get (radec : Radec) : Except PyErr (Option ℚ) :=
  match radec with
  | none => Except.ok none
  | some (x, y) =>
    if PostGISSpatialBackend._complete (some (x, y)) then
      (pyFloat y).map (fun q => some q)
    else
      Except.ok none

/-- How a Python f-string renders the result of a getter: the value
`None` becomes the token `None`; a float becomes its decimal rendering. -/
def renderGetter : Option ℚ → PointTok
  | none => PointTok.pyNone
  | some q => PointTok.num q

/-- The `ra` setter (spatial/postgis.py lines 198-202): initialize
`radec` to `DEFAULT` if it is `None`, then rewrite it as
`POINT({value - 180} {self.dec})`, interpolating the current `dec`
getter result. -/
def PostGISSpatialBackend.ra_set (radec : Radec) (value : ℚ) : Except PyErr Radec :=
  let radec := match radec with
    | none => PostGISSpatialBackend.DEFAULT
    | some p => some p
  (PostGISSpatialBackend.dec_get radec).map
    (fun d => some (PointTok.num (value - 180), renderGetter d))

/-- The `dec` setter (spatial/postgis.py lines 204-208): initialize
`radec` to `DEFAULT` if it is `None`, then rewrite it as
`POINT({self.ra} {value})`, interpolating the current `ra` getter result
(which already includes the `+ 180` reconstruction). -/
def PostGISSpatialBackend.dec_set (radec : Radec) (value : ℚ) : Except PyErr Radec :=
  let radec := match radec with
    | none => PostGISSpatialBackend.DEFAULT
    | some p => some p
  (PostGISSpatialBackend.ra_get radec).map
    (fun r => some (renderGetter r, PointTok.num value))

/-- Claim C3 (code bug): on a fresh carrier, setting only `ra := 10`
stores `POINT(-170 None)`; because `_complete` checks for the token
`'NULL'` while the f-string renders Python `None` as `'None'`, the state
is judged complete, so the `ra` getter returns the partial numeric value
`10` and the `dec` getter raises `ValueError` from `float('None')` —
whereas the claim (and the class's own docstring) say both getters
report unset. -/
theorem postgis_partial_set_getter_behavior :
    PostGISSpatialBackend.ra_set none 10 =
      Except.ok (some (PointTok.num (-170), PointTok.pyNone)) ∧
    PostGISSpatialBackend.ra_get (some (PointTok.num (-170), PointTok.pyNone)) =
      Except.ok (some 10) ∧
    PostGISSpatialBackend.dec_get (some (PointTok.num (-170), PointTok.pyNone)) =
      Except.error (PyErr.valueError "could not convert string to float: None") := by
  refine ⟨?_, ?_, ?_⟩ <;>
    simp [PostGISSpatialBackend.ra_set, PostGISSpatialBackend.ra_get,
      PostGISSpatialBackend.dec_get, PostGISSpatialBackend.DEFAULT,
      PostGISSpatialBackend._complete, pyFloat, renderGetter, Except.map] <;>
    norm_num

/-- Claim C4 (code bug): starting from a fresh carrier, setting
`ra := 10` and then `dec := 20` ends in the stored string
`POINT(10 20)` — the `dec` setter interpolates the `ra` getter's
reconstructed value (already shifted `+ 180`) without re-subtracting
`180` — so the `ra` getter afterwards returns `190`, not the original
`10` (the `dec` getter does return `20`).  The claimed round-trip fails
for the order ra-then-dec; the opposite order dec-then-ra does
round-trip. -/
theorem postgis_ra_then_dec_roundtrip_breaks :
    ((PostGISSpatialBackend.ra_set none 10).bind
      (fun s => PostGISSpatialBackend.dec_set s 20) =
        Except.ok (some (PointTok.num 10, PointTok.num 20))) ∧
    PostGISSpatialBackend.ra_get (some (PointTok.num 10, PointTok.num 20)) =
      Except.ok (some 190) ∧
    PostGISSpatialBackend.dec_get (some (PointTok.num 10, PointTok.num 20)) =
      Except.ok (some 20) ∧
    ((PostGISSpatialBackend.dec_set none 20).bind
      (fun s => PostGISSpatialBackend.ra_set s 10) =
        Except.ok (some (PointTok.num (-170), PointTok.num 20))) ∧
    PostGISSpatialBackend.ra_get (some (PointTok.num (-170), PointTok.num 20)) =
      Except.ok (some 10) := by
  refine ⟨?_, ?_, ?_, ?_, ?_⟩ <;>
    simp [PostGISSpatialBackend.ra_set, PostGISSpatialBackend.dec_set,
      PostGISSpatialBackend.ra_get, PostGISSpatialBackend.dec_get,
      PostGISSpatialBackend.DEFAULT, PostGISSpatialBackend._complete,
      pyFloat, renderGetter, Except.map, Except.bind] <;>
    norm_num

/-- Claim C10: on a carrier whose stored point is complete (both tokens
numeric), assigning `ra := v` rewrites the point as
`POINT(v - 180, lat)` using the current latitude, so the `dec` getter
reads the same value before and after the assignment. -/
theorem postgis_ra_setter_preserves_dec (lon lat v : ℚ) :
    PostGISSpatialBackend.ra_set (some (PointTok.num lon, PointTok.num lat)) v =
      Except.ok (some (PointTok.num (v - 180), PointTok.num lat)) ∧
    PostGISSpatialBackend.dec_get (some (PointTok.num (v - 180), PointTok.num lat)) =
      Except.ok (some lat) ∧
    PostGISSpatialBackend.dec_get (some (PointTok.num lon, PointTok.num lat)) =
      Except.ok (some lat) := by
  refine ⟨?_, ?_, ?_⟩ <;>
    simp [PostGISSpatialBackend.ra_set, PostGISSpatialBackend.dec_get,
      PostGISSpatialBackend._complete, pyFloat, renderGetter, Except.map]

/-- The three spatial strategies, as selected by clock.py. -/
inductive Backend
  | postgis
  | q3c
  | unindexed
deriving DecidableEq

/-- Python's `str.lower()` on the configuration token, modelled as the
character-wise ASCII lowering of the string (the configuration values in
play are ASCII). -/
def pyLower (s : String) : String := String.mk (s.data.map Char.toLower)

/-- The strategy selector (clock.py lines 18-28): lower-case the
configured `index_type` when it is not `None`, bind `'postgis'` to the
PostGIS backend and `'q3c'` to the Q3C backend, and fall back to the
Unindexed backend otherwise. -/
def selectBackend (itype : Option String) : Backend :=
  let it := itype.map (fun s => pyLower s)
  if it = some "postgis" then Backend.postgis
  else if it = some "q3c" then Backend.q3c
  else Backend.unindexed

/-- Claim C9: the selector binds `'q3c'` to the Q3C strategy and
`'postgis'` to the PostGIS strategy, and every absent or unrecognized
configuration value yields the Unindexed strategy rather than failing. -/
theorem strategy_selector_spec :
    selectBackend (some "q3c") = Backend.q3c ∧
    selectBackend (some "postgis") = Backend.postgis ∧
    selectBackend none = Backend.unindexed ∧
    ∀ s : String, pyLower s ≠ "postgis" → pyLower s ≠ "q3c" →
      selectBackend (some s) = Backend.unindexed := by
  refine ⟨by decide, by decide, rfl, ?_⟩
  intro s h1 h2
  simp [selectBackend, h1, h2]

/-- Witness for C9 at the concrete unrecognized value `'sqlite'`. -/
theorem strategy_selector_spec_witness :
    selectBackend (some "sqlite") = Backend.unindexed :=
  strategy_selector_spec.2.2.2 "sqlite" (by decide) (by decide)

/-- The observable type-level features of an argument passed as `other`
to `distance`/`radially_within`: whether it is a Python class object,
whether `isinstance` (for a non-class) or `issubclass` (for a class)
against the active backend mixin holds, and whether it exposes the
coordinate attributes the strategy's expression reads (`ra`/`dec` for
the Unindexed and Q3C strategies, `radec` for the PostGIS strategy). -/
structure PyValue where
  isClass : Bool
  isCarrier : Bool
  hasCoordFields : Bool
deriving DecidableEq

/-- `UnindexedSpatialBackend.distance`/`radially_within` perform no
argument validation (spatial/none.py lines 34-77): they read
`other.dec`/`other.ra` directly, so any argument exposing those
attributes is accepted silently, and one lacking them raises
`AttributeError` from the attribute access itself. -/
def UnindexedSpatialBackend.argCheck (other : PyValue) : Except PyErr Unit :=
  if other.hasCoordFields then Except.ok ()
  else Except.error (PyErr.attributeError "object has no attribute dec")

/-- `PostGISSpatialBackend.distance`/`radially_within` perform no
argument validation either (spatial/postgis.py lines 225-269): they read
`other.radec` directly. -/
def PostGISSpatialBackend.argCheck (other : PyValue) : Except PyErr Unit :=
  if other.hasCoordFields then Except.ok ()
  else Except.error (PyErr.attributeError "object has no attribute radec")

/-- `Q3CSpatialBackend.distance` performs no argument validation either
(spatial/q3c.py lines 37-52): unlike `radially_within` it has no
`isinstance`/`issubclass` branch at all and reads `other.ra`/`other.dec`
directly, so any argument exposing those attributes is accepted silently
and one lacking them raises `AttributeError` from the attribute access. -/
def Q3CSpatialBackend.distance_argCheck (other : PyValue) : Except PyErr Unit :=
  if other.hasCoordFields then Except.ok ()
  else Except.error (PyErr.attributeError "object has no attribute ra")

/-- The native primitive `Q3CSpatialBackend.radially_within` dispatches
to. -/
inductive NativeCall
  | q3cRadialQuery
  | q3cJoin
deriving DecidableEq

/-- The `ValueError` message raised by `Q3CSpatialBackend.radially_within`
for a class argument that does not subclass the backend
(spatial/q3c.py lines 79-81); note it names the PostGIS backend. -/
def Q3C_INVALID_INPUT_MSG : String :=
  "Input to `raidally_within` must be an instance of PostGISSpatialBackend or a subclass of PostGISSpatialBackend."

/-- The dispatch of `Q3CSpatialBackend.radially_within`
(spatial/q3c.py lines 74-81): `isinstance(other, Q3CSpatialBackend)`
picks `q3c_radial_query`; otherwise `issubclass(other, Q3CSpatialBackend)`
picks `q3c_join` when it returns `True`, the descriptive `ValueError` is
raised when it returns `False`, and `issubclass` itself raises
`TypeError` when `other` is not a class at all. -/
def Q3CSpatialBackend.rw_dispatch (other : PyValue) : Except PyErr NativeCall :=
  if !other.isClass && other.isCarrier then Except.ok NativeCall.q3cRadialQuery
  else if other.isClass then
    if other.isCarrier then Except.ok NativeCall.q3cJoin
    else Except.error (PyErr.valueError Q3C_INVALID_INPUT_MSG)
  else Except.error (PyErr.typeError "issubclass() arg 1 must be a class")

/-- Counterexample to claim C5: an argument that is neither an instance
nor a class of the carrier contract (here: a non-class, non-carrier
object that merely exposes `ra`/`dec` attributes) is accepted silently
by the Unindexed strategy's `radially_within`/`distance` — no error of
any kind is raised, contradicting the claim that every such argument
fails fast with a descriptive usage error under all three strategies. -/
theorem unindexed_accepts_noncarrier_silently :
    (PyValue.mk false false true).isClass = false ∧
    (PyValue.mk false false true).isCarrier = false ∧
    UnindexedSpatialBackend.argCheck (PyValue.mk false false true) = Except.ok () :=
  ⟨rfl, rfl, rfl⟩

/-- Claim C5 as amended: only the Q3C strategy validates its
`radially_within` argument — a class that does not subclass the carrier
mixin raises the descriptive `ValueError`, a non-class non-carrier
argument raises `TypeError` from the `issubclass` test itself, and the
two carrier shapes dispatch to the two native primitives; the Unindexed
and PostGIS strategies (and `distance` under all three strategies,
Q3C's included) perform no contract check: any argument exposing the
coordinate attributes is accepted silently, and one lacking them fails
with an `AttributeError` from the attribute access, not a usage error. -/
theorem strategy_argument_checking_behavior :
    ∀ cl c f : Bool,
      UnindexedSpatialBackend.argCheck ⟨cl, c, f⟩ =
        (if f then Except.ok ()
         else Except.error (PyErr.attributeError "object has no attribute dec")) ∧
      PostGISSpatialBackend.argCheck ⟨cl, c, f⟩ =
        (if f then Except.ok ()
         else Except.error (PyErr.attributeError "object has no attribute radec")) ∧
      Q3CSpatialBackend.distance_argCheck ⟨cl, c, f⟩ =
        (if f then Except.ok ()
         else Except.error (PyErr.attributeError "object has no attribute ra")) ∧
      Q3CSpatialBackend.rw_dispatch ⟨cl, c, f⟩ =
        (if cl then
          (if c then Except.ok NativeCall.q3cJoin
           else Except.error (PyErr.valueError Q3C_INVALID_INPUT_MSG))
         else if c then Except.ok NativeCall.q3cRadialQuery
         else Except.error (PyErr.typeError "issubclass() arg 1 must be a class")) := by
  intro cl c f
  cases cl <;> cases c <;> cases f <;> exact ⟨rfl, rfl, rfl, rfl⟩

/-- Modelled from the spec: the great-circle central angle in radians
between two sky points given in degrees, the common ground-truth
semantics the spec assigns to the external index extensions' native
distance primitives (spec section 8, cross-strategy agreement). -/
noncomputable def sphereAngle (lon1 lat1 lon2 lat2 : ℝ) : ℝ :=
  Real.arccos (min (max (Real.sin (lat1 * DEG_TO_RAD) * Real.sin (lat2 * DEG_TO_RAD) +
    Real.cos (lat1 * DEG_TO_RAD) * Real.cos (lat2 * DEG_TO_RAD) *
    Real.cos ((lon1 - lon2) * DEG_TO_RAD)) (-1)) 1)

/-- The great-circle central angle is symmetric in its two points. -/
theorem sphereAngle_symm (lon1 lat1 lon2 lat2 : ℝ) :
    sphereAngle lon1 lat1 lon2 lat2 = sphereAngle lon2 lat2 lon1 lat1 := by
  simp only [sphereAngle]
  rw [cosSum_swap]

/-- Modelled from the spec: `q3c_dist`, the pixelization extension's
native degree-valued great-circle distance primitive. -/
noncomputable def q3c_dist (ra1 dec1 ra2 dec2 : ℝ) : ℝ :=
  sphereAngle ra1 dec1 ra2 dec2 / DEG_TO_RAD

/-- Modelled from the spec: `q3c_radial_query(ra1, dec1, ra2, dec2, rd)`,
the point-radius containment primitive — true when the two points are
within `rd` degrees of one another. -/
def q3c_radial_query (ra1 dec1 ra2 dec2 rd : ℝ) : Prop :=
  q3c_dist ra1 dec1 ra2 dec2 ≤ rd

/-- Modelled from the spec: `q3c_join`, the join primitive — same
semantics as `q3c_radial_query` with a different native call shape. -/
def q3c_join (ra1 dec1 ra2 dec2 rd : ℝ) : Prop :=
  q3c_dist ra1 dec1 ra2 dec2 ≤ rd

/-- `Q3CSpatialBackend.distance` (spatial/q3c.py line 52):
`q3c_dist(self.ra, self.dec, other.ra, other.dec) * 3600.`. -/
noncomputable def Q3CSpatialBackend.distance (self other : Coords) : ℝ :=
  q3c_dist self.ra self.dec other.ra other.dec * 3600

/-- `Q3CSpatialBackend.radially_within` on the instance path
(spatial/q3c.py lines 83-86): builds
`q3c_radial_query(other.ra, other.dec, self.ra, self.dec, r * DEGREES_PER_ARCSEC)`. -/
def Q3CSpatialBackend.radially_within (self other : Coords)
    (angular_sep_arcsec : ℝ) : Prop :=
  q3c_radial_query other.ra other.dec self.ra self.dec
    (angular_sep_arcsec * DEGREES_PER_ARCSEC)

/-- `Q3CSpatialBackend.radially_within` on the class (join) path
(spatial/q3c.py lines 83-86), read at one row of the joined table:
builds `q3c_join(other.ra, other.dec, self.ra, self.dec,
r * DEGREES_PER_ARCSEC)`. -/
def Q3CSpatialBackend.radially_within_join (self otherRow : Coords)
    (angular_sep_arcsec : ℝ) : Prop :=
  q3c_join otherRow.ra otherRow.dec self.ra self.dec
    (angular_sep_arcsec * DEGREES_PER_ARCSEC)

/-- A PostGIS carrier row for the expression semantics: its stored
geography point, as the (longitude, latitude) pair of the `radec`
column. -/
structure PGRow where
  radec : ℝ × ℝ

/-- `PostGISSpatialBackend.RADIUS = 6370986. * 1.00000357` meters
(spatial/postgis.py line 158), the single effective-Earth-radius
constant shared by `distance` and `radially_within`. -/
noncomputable def PostGISSpatialBackend.RADIUS : ℝ := 6370986 * 1.00000357

/-- Modelled from the spec: `ST_Distance(a, b, False)`, the geography
extension's native geodesic distance in meters — the great-circle
central angle on the engine's assumed sphere, whose radius the spec says
the `RADIUS` constant matches. -/
noncomputable def ST_Distance (p q : ℝ × ℝ) (_useSpheroid : Bool) : ℝ :=
  PostGISSpatialBackend.RADIUS * sphereAngle p.1 p.2 q.1 q.2

/-- Modelled from the spec: `ST_DWithin(a, b, d, False)`, the native
within-distance primitive — true when the native distance is at most `d`
meters. -/
def ST_DWithin (p q : ℝ × ℝ) (d : ℝ) (useSpheroid : Bool) : Prop :=
  ST_Distance p q useSpheroid ≤ d

/-- `PostGISSpatialBackend.distance` (spatial/postgis.py lines 240-241):
`ST_Distance(self.radec, other.radec, False) / RADIUS / RADIANS_PER_ARCSEC`. -/
noncomputable def PostGISSpatialBackend.distance (self other : PGRow) : ℝ :=
  ST_Distance self.radec other.radec false /
    PostGISSpatialBackend.RADIUS / RADIANS_PER_ARCSEC

/-- `PostGISSpatialBackend.radially_within` (spatial/postgis.py lines
263-269): `eqdist = RADIUS * angular_sep_arcsec * RADIANS_PER_ARCSEC`,
then `ST_DWithin(self.radec, other.radec, eqdist, False)`. -/
def PostGISSpatialBackend.radially_within (self other : PGRow)
    (angular_sep_arcsec : ℝ) : Prop :=
  ST_DWithin self.radec other.radec
    (PostGISSpatialBackend.RADIUS * angular_sep_arcsec * RADIANS_PER_ARCSEC) false

/-- `PostGISSpatialBackend.RADIUS` is positive. -/
theorem PostGISSpatialBackend.RADIUS_pos : 0 < PostGISSpatialBackend.RADIUS := by
  rw [PostGISSpatialBackend.RADIUS]
  norm_num

/-- `RADIANS_PER_ARCSEC` is positive. -/
theorem RADIANS_PER_ARCSEC_pos : 0 < RADIANS_PER_ARCSEC := by
  rw [RADIANS_PER_ARCSEC, DEG_TO_RAD]
  positivity

/-- Claim C6: the PostGIS `distance` is the native meter-valued geodesic
distance divided by `RADIUS × radians_per_arcsec`, `radially_within`
tests within-distance at exactly `RADIUS × r × radians_per_arcsec`
meters (both operations reading the one shared constant
`PostGISSpatialBackend.RADIUS`), and consequently `radially_within` at
radius `r` arcsec holds exactly when `distance` reports at most `r`
arcsec. -/
theorem postgis_distance_radius_consistency (a b : PGRow) (r : ℝ) :
    PostGISSpatialBackend.distance a b =
      ST_Distance a.radec b.radec false /
        (PostGISSpatialBackend.RADIUS * RADIANS_PER_ARCSEC) ∧
    (PostGISSpatialBackend.radially_within a b r ↔
      ST_Distance a.radec b.radec false ≤
        PostGISSpatialBackend.RADIUS * r * RADIANS_PER_ARCSEC) ∧
    (PostGISSpatialBackend.radially_within a b r ↔
      PostGISSpatialBackend.distance a b ≤ r) := by
  have hpos : 0 < PostGISSpatialBackend.RADIUS * RADIANS_PER_ARCSEC :=
    mul_pos PostGISSpatialBackend.RADIUS_pos RADIANS_PER_ARCSEC_pos
  refine ⟨?_, Iff.rfl, ?_⟩
  · rw [PostGISSpatialBackend.distance, div_div]
  · simp only [PostGISSpatialBackend.radially_within, ST_DWithin,
      PostGISSpatialBackend.distance, div_div]
    rw [div_le_iff₀ hpos]
    rw [show r * (PostGISSpatialBackend.RADIUS * RADIANS_PER_ARCSEC) =
      PostGISSpatialBackend.RADIUS * r * RADIANS_PER_ARCSEC by ring]

/-- Claim C7: the Q3C `distance` multiplies the native degree-valued
`q3c_dist` by exactly `3600`, `radially_within` hands both the
point-radius primitive and the join primitive a radius of exactly
`r × 1/3600` degrees, and the two conversions are mutually consistent:
`radially_within(a, b, r)` holds exactly when `distance(b, a) ≤ r`. -/
theorem q3c_unit_conversion_exact (a b : Coords) (r : ℝ) :
    Q3CSpatialBackend.distance a b = q3c_dist a.ra a.dec b.ra b.dec * 3600 ∧
    (Q3CSpatialBackend.radially_within a b r ↔
      q3c_radial_query b.ra b.dec a.ra a.dec (r * (1 / 3600))) ∧
    (Q3CSpatialBackend.radially_within_join a b r ↔
      q3c_join b.ra b.dec a.ra a.dec (r * (1 / 3600))) ∧
    (Q3CSpatialBackend.radially_within a b r ↔
      Q3CSpatialBackend.distance b a ≤ r) := by
  refine ⟨rfl, Iff.rfl, Iff.rfl, ?_⟩
  simp only [Q3CSpatialBackend.radially_within, q3c_radial_query,
    Q3CSpatialBackend.distance, DEGREES_PER_ARCSEC]
  rw [show r * (1 / 3600) = r / 3600 by ring]
  exact le_div_iff₀ (by norm_num)

/-- The Unindexed cosine sum is symmetric in the two carriers. -/
theorem UnindexedSpatialBackend.roundoff_safe_comm (a b : Coords) :
    UnindexedSpatialBackend.roundoff_safe a b =
      UnindexedSpatialBackend.roundoff_safe b a := by
  simp only [UnindexedSpatialBackend.roundoff_safe]
  rw [cosSum_swap]

/-- The modelled native `q3c_dist` is symmetric. -/
theorem q3c_dist_symm (ra1 dec1 ra2 dec2 : ℝ) :
    q3c_dist ra1 dec1 ra2 dec2 = q3c_dist ra2 dec2 ra1 dec1 := by
  rw [q3c_dist, q3c_dist, sphereAngle_symm]

/-- The modelled native `ST_Distance` is symmetric. -/
theorem ST_Distance_symm (p q : ℝ × ℝ) (s : Bool) :
    ST_Distance p q s = ST_Distance q p s := by
  rw [ST_Distance, ST_Distance, sphereAngle_symm]

/-- Claim C8: for all carriers and every radius `r ≥ 0`,
`radially_within(a, b, r)` equals `radially_within(b, a, r)` under each
of the three strategies. -/
theorem radially_within_symmetric (a b : Coords) (pa pb : PGRow) (r : ℝ)
    (h : 0 ≤ r) :
    (UnindexedSpatialBackend.radially_within a b r ↔
      UnindexedSpatialBackend.radially_within b a r) ∧
    (Q3CSpatialBackend.radially_within a b r ↔
      Q3CSpatialBackend.radially_within b a r) ∧
    (PostGISSpatialBackend.radially_within pa pb r ↔
      PostGISSpatialBackend.radially_within pb pa r) := by
  refine ⟨?_, ?_, ?_⟩
  · simp only [UnindexedSpatialBackend.radially_within,
      UnindexedSpatialBackend.distance,
      UnindexedSpatialBackend.roundoff_safe_comm a b]
  · simp only [Q3CSpatialBackend.radially_within, q3c_radial_query,
      q3c_dist_symm b.ra b.dec a.ra a.dec]
  · simp only [PostGISSpatialBackend.radially_within, ST_DWithin,
      ST_Distance_symm pa.radec pb.radec]

/-- Witness for C8 at the spec's concrete scenario, radius 40 arcsec:
points `(10°, 0°)` and `(10°, 0.01°)` for the ra/dec strategies, the
correspondingly stored `(-170°, 0°)` and `(-170°, 0.01°)` geography
points for the PostGIS strategy. -/
theorem radially_within_symmetric_witness :
    (UnindexedSpatialBackend.radially_within ⟨10, 0⟩ ⟨10, 1 / 100⟩ 40 ↔
      UnindexedSpatialBackend.radially_within ⟨10, 1 / 100⟩ ⟨10, 0⟩ 40) ∧
    (Q3CSpatialBackend.radially_within ⟨10, 0⟩ ⟨10, 1 / 100⟩ 40 ↔
      Q3CSpatialBackend.radially_within ⟨10, 1 / 100⟩ ⟨10, 0⟩ 40) ∧
    (PostGISSpatialBackend.radially_within ⟨(-170, 0)⟩ ⟨(-170, 1 / 100)⟩ 40 ↔
      PostGISSpatialBackend.radially_within ⟨(-170, 1 / 100)⟩ ⟨(-170, 0)⟩ 40) :=
  radially_within_symmetric ⟨10, 0⟩ ⟨10, 1 / 100⟩ ⟨(-170, 0)⟩ ⟨(-170, 1 / 100)⟩
    40 (by norm_num)
